import Mathlib

/-!
Verification development for the Merlin listener service
(`pkg/services/listeners/listeners.go`).

The Go source is shallowly embedded below:
* Go maps (`map[string]string`) are association lists whose pair order is
  the insertion order; a repository is a list of records in insertion order.
* Fallible Go functions returning `error` become `Except GoErr`.
* A Go runtime panic (nil-pointer dereference) is the distinguished
  `Outcome.fault` value.
* External collaborators that are not part of this package (per-protocol
  listener/server factories, default-option providers, the repository
  implementations in the `memory` sub-packages, and the protocol-tag
  constants of `pkg/listeners`) are modelled from the specification and
  marked as such in their doc comments.
-/

namespace Merlin

/-- Error taxonomy of the specification (§7): ValidationError,
UnsupportedProtocolError, ConfigurationError, DuplicateError, NotFoundError. -/
inductive ErrKind where
  | validation
  | unsupportedProtocol
  | configuration
  | duplicateRecord
  | recordNotFound
deriving DecidableEq, Repr

/-- A Go `error` value: either a base error with a kind and message, or a
wrapped error as produced by `fmt.Errorf("<op>: %s", err)` — the `wrap`
constructor records the operation tag used as the format prefix. -/
inductive GoErr where
  | base : ErrKind → String → GoErr
  | wrap : String → GoErr → GoErr
deriving DecidableEq, Repr

/-- The operation a surfaced error identifies: the outermost wrapping tag,
or the message of an unwrapped base error. -/
def GoErr.identifiedOp : GoErr → String
  | .wrap op _ => op
  | .base _ msg => msg

/-- Model of Go `unicode`-based lowercasing restricted to ASCII letters,
which is all the protocol dispatch in `listeners.go` compares against. -/
def lowerChar (c : Char) : Char :=
  if c = 'A' then 'a' else if c = 'B' then 'b' else if c = 'C' then 'c'
  else if c = 'D' then 'd' else if c = 'E' then 'e' else if c = 'F' then 'f'
  else if c = 'G' then 'g' else if c = 'H' then 'h' else if c = 'I' then 'i'
  else if c = 'J' then 'j' else if c = 'K' then 'k' else if c = 'L' then 'l'
  else if c = 'M' then 'm' else if c = 'N' then 'n' else if c = 'O' then 'o'
  else if c = 'P' then 'p' else if c = 'Q' then 'q' else if c = 'R' then 'r'
  else if c = 'S' then 's' else if c = 'T' then 't' else if c = 'U' then 'u'
  else if c = 'V' then 'v' else if c = 'W' then 'w' else if c = 'X' then 'x'
  else if c = 'Y' then 'y' else if c = 'Z' then 'z' else c

/-- `strings.ToLower` as used by `NewListener` (listeners.go:79). -/
def goToLower (s : String) : String := ⟨s.data.map lowerChar⟩

/-- Modelled from the spec: the enumerated protocol tag constant
`listeners.HTTP` of `pkg/listeners` (§3: tags are distinct; exact numeric
values are opaque). -/
def listenersHTTP : Int := 1

/-- Modelled from the spec: the enumerated protocol tag constant
`listeners.TCP` of `pkg/listeners`. -/
def listenersTCP : Int := 2

/-- An infrastructure-layer Server record (spec §3). The behaviour of its
external `Stop()` method (out of scope per §1) is modelled by the field
`stopErr`: `none` means `Stop()` returns success, `some e` that it fails
with `e`. -/
structure Server where
  id : Nat
  stopErr : Option GoErr
deriving DecidableEq, Repr

/-- A Listener record (spec §3): process-unique identifier, name, protocol
tag, option map, and an optional reference to a Server. The Go method
`Server()` returns a nil pointer exactly when the field is `none`
(spec §3 core invariant: a raw-socket Listener never carries a Server). -/
structure Listener where
  id : Nat
  name : String
  protocol : Int
  options : List (String × String)
  server : Option Server
deriving DecidableEq, Repr

/-- Go map read `m[k]` returning the `ok` flag: first binding of `k`. -/
def mapLookup (m : List (String × String)) (k : String) : Option String :=
  (m.find? (fun p => p.1 == k)).map Prod.snd

/-- The key sequence of an option map. -/
def keys (m : List (String × String)) : List String := m.map Prod.fst

/-- Go map write `m[k] = v`: overwrite the existing binding, else append. -/
def goUpdate (m : List (String × String)) (k v : String) :
    List (String × String) :=
  if m.any (fun p => p.1 == k) then
    m.map (fun p => if p.1 == k then (k, v) else p)
  else m ++ [(k, v)]

/-- The merge loop `for k, v := range serverOptions { listenerOptions[k] = v }`
of DefaultOptions (listeners.go:158-160), one map write per entry. -/
def goMerge : (m adds : List (String × String)) → List (String × String)
  | m, [] => m
  | m, kv :: rest => goMerge (goUpdate m kv.1 kv.2) rest

/-- Whether a repository holds a record with the given identifier. -/
def hasID (repo : List Listener) (id : Nat) : Bool :=
  repo.any (fun l => l.id == id)

/-- Modelled from the spec: `Repository.Add` of the external in-memory
repositories (§4.2) — fails with DuplicateError on identifier collision,
otherwise stores the record. -/
def repoAdd (repo : List Listener) (l : Listener) :
    Except GoErr (List Listener) :=
  if hasID repo l.id then
    .error (.base .duplicateRecord "a listener with that identifier already exists")
  else .ok (repo ++ [l])

/-- Modelled from the spec: `Repository.ByID` (§4.2) — fails with
NotFoundError when absent. -/
def repoByID (repo : List Listener) (id : Nat) : Except GoErr Listener :=
  match repo.find? (fun l => l.id == id) with
  | some l => .ok l
  | none => .error (.base .recordNotFound "listener not found by id")

/-- Modelled from the spec: `Repository.ByName` (§4.2) — fails with
NotFoundError when absent. -/
def repoByName (repo : List Listener) (name : String) : Except GoErr Listener :=
  match repo.find? (fun l => l.name == name) with
  | some l => .ok l
  | none => .error (.base .recordNotFound "listener not found by name")

/-- Modelled from the spec: `Repository.RemoveByID` (§4.2) — fails with
NotFoundError if the target is absent, otherwise deletes the record. -/
def repoRemoveByID (repo : List Listener) (id : Nat) :
    Except GoErr (List Listener) :=
  if hasID repo id then
    .ok (repo.filter (fun l => !(l.id == id)))
  else .error (.base .recordNotFound "listener not found by id")

/-- Modelled from the spec: `Add` of the external Server repository (§4.2). -/
def serverRepoAdd (repo : List Server) (s : Server) :
    Except GoErr (List Server) :=
  if repo.any (fun x => x.id == s.id) then
    .error (.base .duplicateRecord "a server with that identifier already exists")
  else .ok (repo ++ [s])

/-- The `ListenerService` structure (listeners.go:42-46): references to the
TCP listener, HTTP listener and HTTP server repositories. -/
structure ListenerService where
  tcpRepo : List Listener
  httpRepo : List Listener
  httpServerRepo : List Server
deriving DecidableEq, Repr

/-- The protocol branch selected by the `switch strings.ToLower(...)`
statement of NewListener (listeners.go:79-117). -/
inductive Branch where
  | httpFamily
  | rawSocket
  | unsupported
deriving DecidableEq, Repr

/-- The HTTP-family case labels of the dispatch switch (listeners.go:81). -/
def httpFamilyNames : List String := ["http", "https", "h2c", "http2", "http3"]

/-- The dispatch of NewListener (listeners.go:79-117): lowercase the
Protocol value and match it against the case labels. -/
def dispatch (protoVal : String) : Branch :=
  if goToLower protoVal ∈ httpFamilyNames then .httpFamily
  else if goToLower protoVal = "tcp" then .rawSocket
  else .unsupported

/-- Modelled from the spec: the external factory collaborators consumed by
the service (§6) — the Server factory `httpServer.New`, the HTTP-family
listener factory `http.NewHTTPListener`, and the raw-socket listener
factory `tcp.NewTCPListener`. Their outcomes are parameters of the model. -/
structure Factories where
  httpServerNew : List (String × String) → Except GoErr Server
  newHTTPListener : Server → List (String × String) → Except GoErr Listener
  newTCPListener : List (String × String) → Except GoErr Listener

/-- `NewListener` (listeners.go:73-118). The pair returned is the updated
repository state (Go mutates the repositories in place) together with the
Go return value. Every early `return nil, fmt.Errorf(...)` leaves the
state reached so far. -/
def NewListener (F : Factories) (ls : ListenerService)
    (options : List (String × String)) :
    ListenerService × Except GoErr Listener :=
  match mapLookup options "Protocol" with
  | none =>
    (ls, .error (.base .validation
      "pkg/services/listeners.CreateListener(): the options map did not contain the Protocol key"))
  | some protoVal =>
    match dispatch protoVal with
    | .httpFamily =>
      match F.httpServerNew options with
      | .error e =>
        (ls, .error (.wrap "pkg/services/listeners.CreateListener()" e))
      | .ok hServer =>
        match serverRepoAdd ls.httpServerRepo hServer with
        | .error e =>
          (ls, .error (.wrap "pkg/services/listeners.CreateListener()" e))
        | .ok srepo =>
          let ls1 := { ls with httpServerRepo := srepo }
          match F.newHTTPListener hServer options with
          | .error e =>
            (ls1, .error (.wrap "pkg/services/listeners.CreateListener()" e))
          | .ok hListener =>
            match repoAdd ls1.httpRepo hListener with
            | .error e =>
              (ls1, .error (.wrap "pkg/services/listeners.CreateListener()" e))
            | .ok hrepo => ({ ls1 with httpRepo := hrepo }, .ok hListener)
    | .rawSocket =>
      match F.newTCPListener options with
      | .error e =>
        (ls, .error (.wrap "pkg/services/listeners.CreateListener()" e))
      | .ok tListener =>
        match repoAdd ls.tcpRepo tListener with
        | .error e =>
          (ls, .error (.wrap "pkg/services/listeners.CreateListener()" e))
        | .ok trepo => ({ ls with tcpRepo := trepo }, .ok tListener)
    | .unsupported =>
      (ls, .error (.base .unsupportedProtocol
        "pkg/services/listeners.CreateListener(): unhandled server type"))

/-- The Go method `Listener(id)` (listeners.go:184-194): probe the HTTP
repository first, then the TCP repository, else a NotFoundError. Renamed
here because `Listener` is the record type. -/
def ListenerByID (ls : ListenerService) (id : Nat) : Except GoErr Listener :=
  match repoByID ls.httpRepo id with
  | .ok l => .ok l
  | .error _ =>
    match repoByID ls.tcpRepo id with
    | .ok l => .ok l
    | .error _ =>
      .error (.base .recordNotFound
        "pkg/services/listeners.GetListenerByID(): could not find listener")

/-- `ListenerByName` (listeners.go:227-237): HTTP repository first, then
the TCP repository, whose miss is wrapped and surfaced. -/
def ListenerByName (ls : ListenerService) (name : String) :
    Except GoErr Listener :=
  match repoByName ls.httpRepo name with
  | .ok l => .ok l
  | .error _ =>
    match repoByName ls.tcpRepo name with
    | .error e => .error (.wrap "pkg/services/listeners.GetListenerByName()" e)
    | .ok l => .ok l

/-- `ListenersByType` (listeners.go:240-254): switch on the protocol tag
with no default case, so an unknown tag yields the nil slice. -/
def ListenersByType (ls : ListenerService) (protocol : Int) : List Listener :=
  if protocol = listenersHTTP then ls.httpRepo
  else if protocol = listenersTCP then ls.tcpRepo
  else []

/-- The result of a lifecycle call: success, a Go error, or a runtime
fault (the nil-pointer dereference panic raised by `*listener.Server()`
when the listener carries no Server). -/
inductive Outcome where
  | ok
  | fail : GoErr → Outcome
  | fault
deriving DecidableEq, Repr

/-- `Start` (listeners.go:306-324). The Bool records whether the Server
start routine was launched on a goroutine (`go server.Start()`). -/
def Start (ls : ListenerService) (id : Nat) : Outcome × Bool :=
  match ListenerByID ls id with
  | .error e => (.fail (.wrap "pkg/services/listeners.Start()" e), false)
  | .ok l =>
    if l.protocol = listenersHTTP then
      match l.server with
      | none => (.fault, false)
      | some _ => (.ok, true)
    else if l.protocol = listenersTCP then (.ok, false)
    else
      (.fail (.base .unsupportedProtocol
        "pkg/services/listeners.Start(): unhandled listener protocol"), false)

/-- `Stop` (listeners.go:327-335). Note the source wraps the lookup miss
with the tag `pkg/services/listeners.Restart()` (listeners.go:331), and it
dereferences `*listener.Server()` without checking the protocol. -/
def Stop (ls : ListenerService) (id : Nat) : Outcome :=
  match ListenerByID ls id with
  | .error e => .fail (.wrap "pkg/services/listeners.Restart()" e)
  | .ok l =>
    match l.server with
    | none => .fault
    | some sv =>
      match sv.stopErr with
      | none => .ok
      | some e => .fail e

/-- `Restart` (listeners.go:274-287): synchronous `server.Stop()` whose
failure aborts the sequence, then `go server.Start()`. The Bool records
whether the Start routine was launched. Like `Stop`, it dereferences
`*listener.Server()` unconditionally. -/
def Restart (ls : ListenerService) (id : Nat) : Outcome × Bool :=
  match ListenerByID ls id with
  | .error e => (.fail (.wrap "pkg/services/listeners.Restart()" e), false)
  | .ok l =>
    match l.server with
    | none => (.fault, false)
    | some sv =>
      match sv.stopErr with
      | some e => (.fail (.wrap "pkg/services/listeners.Restart()" e), false)
      | none => (.ok, true)

/-- Modelled from the spec: `listeners.FromString` of `pkg/listeners`
(§3: the protocol tag is determined by case-insensitive matching of an
input string; unrecognized values are rejected). The recognized names are
the same case labels the service dispatches on. -/
def listenersFromString (s : String) : Int :=
  match dispatch s with
  | .httpFamily => listenersHTTP
  | .rawSocket => listenersTCP
  | .unsupported => 0

/-- Lexicographic strict comparison of character sequences: the order Go
uses for `sort.Strings` (byte-wise comparison; identical to codepoint
order on the ASCII option keys involved here). -/
def lexLt : List Char → List Char → Bool
  | [], [] => false
  | _ :: _, [] => false
  | [], _ :: _ => true
  | a :: as, b :: bs =>
    if a < b then true
    else if b < a then false
    else lexLt as bs

/-- Go string `a < b`. -/
def strLt (a b : String) : Bool := lexLt a.data b.data

/-- Go string `a <= b`, the order `sort.Strings` establishes. -/
def strLe (a b : String) : Bool := !strLt b a

/-- `strLe` as a relation, for use with `List.insertionSort`. -/
def strLeRel (a b : String) : Prop := strLe a b = true

instance : DecidableRel strLeRel :=
  fun a b => inferInstanceAs (Decidable (strLe a b = true))

/-- The tail of `DefaultOptions` (listeners.go:162-172): collect the keys
of the merged map, sort them, and build the result map by inserting the
entries in sorted key order. The result stands for a Go `map[string]string`:
the list order of this association list records only the insertion sequence
the code performs and is not observable through a Go map, whose iteration
order is unspecified and randomized — the meaningful observations of the
result are `mapLookup` and key membership only. -/
def defaultBuild (merged : List (String × String)) : List (String × String) :=
  (List.insertionSort strLeRel (keys merged)).map
    (fun k => (k, (mapLookup merged k).getD ""))

/-- `DefaultOptions` (listeners.go:141-174). The external default-option
providers are parameters: `httpDefaults` stands for `http.DefaultOptions()`,
`tcpDefaults` for `tcp.DefaultOptions()`, and `serverDefaults` for the
composite `httpServer.GetDefaultOptions(servers.FromString(protocol))`
(§6 collaborators, modelled from the spec). -/
def DefaultOptions (httpDefaults tcpDefaults : List (String × String))
    (serverDefaults : String → List (String × String)) (protocol : String) :
    Except GoErr (List (String × String)) :=
  if listenersFromString protocol = listenersHTTP then
    .ok (defaultBuild (goMerge httpDefaults (serverDefaults protocol)))
  else if listenersFromString protocol = listenersTCP then
    .ok (defaultBuild tcpDefaults)
  else
    .error (.base .unsupportedProtocol
      "pkg/services/listeners.DefaultOptions(): unhandled server type")

/-- Whether an error is, at its core, a NotFoundError (possibly wrapped). -/
def GoErr.isNotFound : GoErr → Bool
  | .base .recordNotFound _ => true
  | .base _ _ => false
  | .wrap _ e => e.isNotFound

instance {ε α : Type} [DecidableEq ε] [DecidableEq α] :
    DecidableEq (Except ε α) := fun a b =>
  match a, b with
  | .ok x, .ok y =>
    if h : x = y then .isTrue (by rw [h]) else .isFalse (by simp [h])
  | .error x, .error y =>
    if h : x = y then .isTrue (by rw [h]) else .isFalse (by simp [h])
  | .ok _, .error _ => .isFalse (by simp)
  | .error _, .ok _ => .isFalse (by simp)

/-- The empty service state, as produced by `NewListenerService`
(listeners.go:49-54) over fresh in-memory repositories. -/
def svc0 : ListenerService where
  tcpRepo := []
  httpRepo := []
  httpServerRepo := []

/-- A concrete instantiation of the external factories in which every
construction succeeds, used to exercise the service operations. -/
def okFactories : Factories where
  httpServerNew := fun _ => .ok { id := 10, stopErr := none }
  newHTTPListener := fun sv opts =>
    .ok { id := 11, name := "h", protocol := listenersHTTP,
          options := opts, server := some sv }
  newTCPListener := fun opts =>
    .ok { id := 12, name := "t", protocol := listenersTCP,
          options := opts, server := none }

/-- A concrete instantiation of the external factories in which Server
construction rejects the supplied values with a ConfigurationError. -/
def failServerFactories : Factories where
  httpServerNew := fun _ =>
    .error (.base .configuration "invalid certificate path")
  newHTTPListener := fun sv opts =>
    .ok { id := 11, name := "h", protocol := listenersHTTP,
          options := opts, server := some sv }
  newTCPListener := fun opts =>
    .ok { id := 12, name := "t", protocol := listenersTCP,
          options := opts, server := none }

/-- C1: the claim says that for a stored raw-socket (TCP) listener, which
carries no bound Server, `Start`, `Stop` and `Restart` all return success
with no effect. On the code, `Start` does return success (listeners.go:318-320),
but `Stop` (listeners.go:333) and `Restart` (listeners.go:280) evaluate
`*listener.Server()` without checking the protocol, dereferencing the nil
Server pointer of the raw-socket listener: a runtime fault, not success.
This theorem evaluates the three operations on a service holding exactly
one raw-socket listener (id 1). -/
theorem stop_restart_fault_on_raw_socket_listener :
    (Start { tcpRepo := [{ id := 1, name := "tcp1", protocol := listenersTCP,
                           options := [], server := none }],
             httpRepo := [], httpServerRepo := [] } 1 = (.ok, false)) ∧
    (Stop { tcpRepo := [{ id := 1, name := "tcp1", protocol := listenersTCP,
                          options := [], server := none }],
            httpRepo := [], httpServerRepo := [] } 1 = .fault) ∧
    ((Restart { tcpRepo := [{ id := 1, name := "tcp1", protocol := listenersTCP,
                              options := [], server := none }],
                httpRepo := [], httpServerRepo := [] } 1).1 = .fault) := by
  decide

/-- C9: when `Stop(id)` fails because no listener with that id exists, the
surfaced error is wrapped with the tag `pkg/services/listeners.Restart()`
(listeners.go:331), not a tag identifying `Stop`; evaluated here on the
empty service at id 5. -/
theorem stop_error_identifies_restart_not_stop :
    (Stop svc0 5 =
      .fail (.wrap "pkg/services/listeners.Restart()"
        (.base .recordNotFound
          "pkg/services/listeners.GetListenerByID(): could not find listener"))) ∧
    ((GoErr.wrap "pkg/services/listeners.Restart()"
        (.base .recordNotFound
          "pkg/services/listeners.GetListenerByID(): could not find listener")).identifiedOp
      ≠ "pkg/services/listeners.Stop()") := by
  decide

/-- C4: for every option map without the key "Protocol", `NewListener`
returns a ValidationError (listeners.go:75-77) and the repository state is
unchanged: no repository gains a new record. -/
theorem new_listener_missing_protocol_key (F : Factories)
    (ls : ListenerService) (options : List (String × String))
    (h : mapLookup options "Protocol" = none) :
    (NewListener F ls options).1 = ls ∧
    ∃ msg, (NewListener F ls options).2 = .error (.base .validation msg) := by
  rw [NewListener, h]
  exact ⟨rfl, _, rfl⟩

/-- Witness for C4 at a concrete option map lacking "Protocol". -/
theorem new_listener_missing_protocol_key_witness :
    (NewListener okFactories svc0 [("Port", "4444")]).1 = svc0 ∧
    ∃ msg, (NewListener okFactories svc0 [("Port", "4444")]).2 =
      .error (.base .validation msg) :=
  new_listener_missing_protocol_key okFactories svc0 [("Port", "4444")]
    (by decide)

/-- C2: for every option map whose Protocol value selects the HTTP family,
if Server construction fails then `NewListener` returns the wrapped error
(listeners.go:82-85) and the repository state is unchanged: neither a
Server nor a Listener record is persisted. -/
theorem new_listener_server_construction_failure (F : Factories)
    (ls : ListenerService) (options : List (String × String))
    (pv : String) (e : GoErr)
    (hp : mapLookup options "Protocol" = some pv)
    (hb : dispatch pv = .httpFamily)
    (hf : F.httpServerNew options = .error e) :
    (NewListener F ls options).1 = ls ∧
    (NewListener F ls options).2 =
      .error (.wrap "pkg/services/listeners.CreateListener()" e) := by
  simp [NewListener, hp, hb, hf]

/-- Witness for C2: concrete HTTPS options against a Server factory that
rejects them. -/
theorem new_listener_server_construction_failure_witness :
    (NewListener failServerFactories svc0 [("Protocol", "HTTPS")]).1 = svc0 ∧
    (NewListener failServerFactories svc0 [("Protocol", "HTTPS")]).2 =
      .error (.wrap "pkg/services/listeners.CreateListener()"
        (.base .configuration "invalid certificate path")) :=
  new_listener_server_construction_failure failServerFactories svc0
    [("Protocol", "HTTPS")] "HTTPS"
    (.base .configuration "invalid certificate path")
    (by decide) (by decide) rfl

/-- C10: `ListenersByType` switches on the protocol tag with no default
case (listeners.go:241-252), so for every tag other than the HTTP tag and
the TCP tag it returns the empty list — and its signature carries no error
at all — regardless of the stored listeners. -/
theorem listeners_by_type_unknown_tag_empty (ls : ListenerService) (p : Int)
    (h1 : p ≠ listenersHTTP) (h2 : p ≠ listenersTCP) :
    ListenersByType ls p = [] := by
  rw [ListenersByType, if_neg h1, if_neg h2]

/-- Witness for C10 at tag 99 over a service holding listeners of both
known protocols. -/
theorem listeners_by_type_unknown_tag_empty_witness :
    ListenersByType
      { tcpRepo := [{ id := 1, name := "t", protocol := listenersTCP,
                      options := [], server := none }],
        httpRepo := [{ id := 2, name := "h", protocol := listenersHTTP,
                       options := [], server := some { id := 3, stopErr := none } }],
        httpServerRepo := [] } 99 = [] :=
  listeners_by_type_unknown_tag_empty _ 99 (by decide) (by decide)

/-- C5: the dispatch of `NewListener` (listeners.go:79-117) lowercases the
Protocol value; a string selects the HTTP branch exactly when its
lowercasing is one of the five HTTP-family names, selects the raw-socket
branch exactly when its lowercasing is "tcp", and on any other value
`NewListener` fails with an UnsupportedProtocolError rather than
defaulting. -/
theorem dispatch_case_insensitive (s : String) :
    (dispatch s = .httpFamily ↔ goToLower s ∈ httpFamilyNames) ∧
    (dispatch s = .rawSocket ↔ goToLower s = "tcp") ∧
    (dispatch s = .unsupported →
      ∀ (F : Factories) (ls : ListenerService)
        (options : List (String × String)),
        mapLookup options "Protocol" = some s →
        ∃ msg, (NewListener F ls options).2 =
          .error (.base .unsupportedProtocol msg)) := by
  have htcp : ("tcp" : String) ∉ httpFamilyNames := by decide
  refine ⟨?_, ?_, ?_⟩
  · unfold dispatch
    by_cases hm : goToLower s ∈ httpFamilyNames
    · simp [hm]
    · by_cases ht : goToLower s = "tcp" <;> simp [hm, ht, htcp]
  · unfold dispatch
    by_cases hm : goToLower s ∈ httpFamilyNames
    · have hne : goToLower s ≠ "tcp" := by
        intro h; rw [h] at hm; exact htcp hm
      simp [hm, hne]
    · by_cases ht : goToLower s = "tcp" <;> simp [hm, ht, htcp]
  · intro hu F ls options hp
    simp [NewListener, hp, hu]

/-- Witness for C5: mixed-case supported names select their branches, and
an unsupported name fails with an UnsupportedProtocolError. -/
theorem dispatch_case_insensitive_witness :
    dispatch "HtTpS" = .httpFamily ∧ dispatch "TcP" = .rawSocket ∧
    ∃ msg, (NewListener okFactories svc0 [("Protocol", "gopher")]).2 =
      .error (.base .unsupportedProtocol msg) :=
  ⟨(dispatch_case_insensitive "HtTpS").1.mpr (by decide),
   (dispatch_case_insensitive "TcP").2.1.mpr (by decide),
   (dispatch_case_insensitive "gopher").2.2 (by decide) okFactories svc0
     [("Protocol", "gopher")] (by decide)⟩

/-- C6: for a listener with a bound Server, `Restart` (listeners.go:280-286)
runs the synchronous `server.Stop()` first; if that fails, the failure is
returned and the asynchronous Start is never attempted; the Start launch
happens only after Stop succeeded. -/
theorem restart_stops_before_starting (ls : ListenerService) (id : Nat)
    (l : Listener) (sv : Server)
    (hl : ListenerByID ls id = .ok l) (hs : l.server = some sv) :
    (∀ e, sv.stopErr = some e →
      Restart ls id =
        (.fail (.wrap "pkg/services/listeners.Restart()" e), false)) ∧
    (sv.stopErr = none → Restart ls id = (.ok, true)) := by
  constructor
  · intro e he
    simp [Restart, hl, hs, he]
  · intro he
    simp [Restart, hl, hs, he]

/-- A Server whose external Stop routine fails. -/
def stopFailServer : Server where
  id := 4
  stopErr := some (.base .configuration "shutdown refused")

/-- An HTTP listener bound to `stopFailServer`. -/
def stopFailListener : Listener where
  id := 3
  name := "h"
  protocol := listenersHTTP
  options := []
  server := some stopFailServer

/-- A service holding exactly `stopFailListener`. -/
def stopFailSvc : ListenerService where
  tcpRepo := []
  httpRepo := [stopFailListener]
  httpServerRepo := []

/-- Witness for C6: a service holding one HTTP listener whose Server's
Stop fails; Restart surfaces that failure and does not launch Start. -/
theorem restart_stops_before_starting_witness :
    Restart stopFailSvc 3 =
      (.fail (.wrap "pkg/services/listeners.Restart()"
        (.base .configuration "shutdown refused")), false) :=
  (restart_stops_before_starting stopFailSvc 3 stopFailListener
    stopFailServer (by decide) (by decide)).1
    (.base .configuration "shutdown refused") (by decide)

/-- `repoByName` only ever misses with a NotFoundError. -/
theorem repoByName_error_isNotFound (repo : List Listener) (name : String)
    (e : GoErr) (h : repoByName repo name = .error e) :
    e.isNotFound = true := by
  unfold repoByName at h
  cases hf : repo.find? (fun l => l.name == name) with
  | some l => rw [hf] at h; cases h
  | none => rw [hf] at h; cases h; rfl

/-- C7: `ListenerByName` (listeners.go:228-236) probes the HTTP repository
before the TCP repository: an HTTP hit is returned without error even when
the TCP repository also holds the name; on an HTTP miss a TCP hit is
returned; and when both repositories miss, a NotFoundError is surfaced. -/
theorem listener_by_name_http_priority (ls : ListenerService)
    (name : String) :
    (∀ l, repoByName ls.httpRepo name = .ok l →
      ListenerByName ls name = .ok l) ∧
    (∀ e l, repoByName ls.httpRepo name = .error e →
      repoByName ls.tcpRepo name = .ok l →
      ListenerByName ls name = .ok l) ∧
    (∀ e e2, repoByName ls.httpRepo name = .error e →
      repoByName ls.tcpRepo name = .error e2 →
      ∃ e3, ListenerByName ls name = .error e3 ∧ e3.isNotFound = true) := by
  refine ⟨?_, ?_, ?_⟩
  · intro l h
    simp [ListenerByName, h]
  · intro e l h h2
    simp [ListenerByName, h, h2]
  · intro e e2 h h2
    refine ⟨.wrap "pkg/services/listeners.GetListenerByName()" e2, ?_, ?_⟩
    · simp [ListenerByName, h, h2]
    · exact repoByName_error_isNotFound ls.tcpRepo name e2 h2

/-- A TCP listener named "shared". -/
def sharedTCPListener : Listener where
  id := 1
  name := "shared"
  protocol := listenersTCP
  options := []
  server := none

/-- An HTTP listener also named "shared". -/
def sharedHTTPListener : Listener where
  id := 2
  name := "shared"
  protocol := listenersHTTP
  options := []
  server := some { id := 5, stopErr := none }

/-- A service in which both repositories hold a listener named "shared". -/
def sharedNameSvc : ListenerService where
  tcpRepo := [sharedTCPListener]
  httpRepo := [sharedHTTPListener]
  httpServerRepo := []

/-- Witness for C7: both repositories hold a listener named "shared"; the
HTTP-family one is returned. -/
theorem listener_by_name_http_priority_witness :
    ListenerByName sharedNameSvc "shared" = .ok sharedHTTPListener :=
  (listener_by_name_http_priority sharedNameSvc "shared").1
    sharedHTTPListener (by decide)

theorem any_key_iff (m : List (String × String)) (k : String) :
    m.any (fun p => p.1 == k) = true ↔ k ∈ keys m := by
  rw [List.any_eq_true]
  constructor
  · rintro ⟨p, hp, hpk⟩
    have hmem := List.mem_map_of_mem Prod.fst hp
    rwa [eq_of_beq hpk] at hmem
  · intro hk
    rcases List.mem_map.mp hk with ⟨p, hp, hpk⟩
    exact ⟨p, hp, beq_iff_eq.mpr hpk⟩

theorem keys_goUpdate (m : List (String × String)) (k v : String) :
    keys (goUpdate m k v) =
      if m.any (fun p => p.1 == k) = true then keys m else keys m ++ [k] := by
  unfold goUpdate keys
  by_cases h : m.any (fun p => p.1 == k) = true
  · rw [if_pos h, if_pos h, List.map_map]
    apply List.map_congr_left
    intro p _
    by_cases hk : (p.1 == k) = true
    · simp only [Function.comp_apply]
      rw [if_pos hk]
      exact (eq_of_beq hk).symm
    · simp only [Function.comp_apply]
      rw [if_neg hk]
  · rw [if_neg h, if_neg h]
    simp

theorem mem_keys_goUpdate (m : List (String × String)) (k v a : String) :
    a ∈ keys (goUpdate m k v) ↔ a ∈ keys m ∨ a = k := by
  rw [keys_goUpdate]
  by_cases h : m.any (fun p => p.1 == k) = true
  · rw [if_pos h]
    constructor
    · exact Or.inl
    · rintro (ha | rfl)
      · exact ha
      · exact (any_key_iff m a).mp h
  · rw [if_neg h]
    simp [List.mem_append]

theorem mem_keys_goMerge : ∀ (adds m : List (String × String)) (a : String),
    a ∈ keys (goMerge m adds) ↔ a ∈ keys m ∨ a ∈ keys adds
  | [], m, a => by simp [goMerge, keys]
  | kv :: rest, m, a => by
    show a ∈ keys (goMerge (goUpdate m kv.1 kv.2) rest) ↔ _
    rw [mem_keys_goMerge rest _ a, mem_keys_goUpdate]
    simp only [keys, List.map_cons, List.mem_cons]
    tauto

theorem keys_defaultBuild (m : List (String × String)) :
    keys (defaultBuild m) = List.insertionSort strLeRel (keys m) := by
  unfold defaultBuild keys
  rw [List.map_map]
  exact List.map_id _

theorem mem_keys_defaultBuild (m : List (String × String)) (a : String) :
    a ∈ keys (defaultBuild m) ↔ a ∈ keys m := by
  rw [keys_defaultBuild]
  exact (List.perm_insertionSort strLeRel (keys m)).mem_iff

theorem option_find?_cons {α : Type} (p : α → Bool) (a : α) (l : List α) :
    List.find? p (a :: l) = if p a then some a else List.find? p l := by
  cases hp : p a <;> simp [List.find?, hp]

theorem mapLookup_map_key (ks : List String) (f : String → String)
    (k : String) :
    mapLookup (ks.map (fun key => (key, f key))) k =
      if k ∈ ks then some (f k) else none := by
  unfold mapLookup
  induction ks with
  | nil => rfl
  | cons k0 rest ih =>
    rw [List.map_cons, option_find?_cons]
    by_cases h0 : (k0 == k) = true
    · have he : k0 = k := eq_of_beq h0
      subst he
      simp
    · have h0f : (k0 == k) = false := by
        revert h0; cases (k0 == k) <;> simp
      have hne : k ≠ k0 := fun he => h0 (beq_iff_eq.mpr he.symm)
      simp only [h0f, Bool.false_eq_true, if_false]
      rw [ih]
      simp [List.mem_cons, hne]

theorem mapLookup_none_iff (m : List (String × String)) (k : String) :
    mapLookup m k = none ↔ k ∉ keys m := by
  unfold mapLookup
  cases hf : m.find? (fun p => p.1 == k) with
  | some p =>
    simp only [Option.map_some']
    constructor
    · intro h; cases h
    · intro h
      have hp := List.find?_some hf
      have hmem := List.mem_map_of_mem Prod.fst (List.mem_of_find?_eq_some hf)
      rw [eq_of_beq hp] at hmem
      exact absurd hmem h
  | none =>
    simp only [Option.map_none']
    constructor
    · intro _ hk
      rcases List.mem_map.mp hk with ⟨p, hp, hpk⟩
      exact (List.find?_eq_none.mp hf p hp) (beq_iff_eq.mpr hpk)
    · intro _; trivial

/-- The sorted rebuild of listeners.go:163-172 has no effect on the map it
builds, observed as a map: at every key, looking up the rebuilt map gives
exactly what looking up the merged map gives. -/
theorem mapLookup_defaultBuild (m : List (String × String)) (k : String) :
    mapLookup (defaultBuild m) k = mapLookup m k := by
  unfold defaultBuild
  rw [mapLookup_map_key]
  by_cases h : k ∈ List.insertionSort strLeRel (keys m)
  · rw [if_pos h]
    have hk : k ∈ keys m :=
      (List.perm_insertionSort strLeRel (keys m)).mem_iff.mp h
    cases hv : mapLookup m k with
    | none => exact absurd ((mapLookup_none_iff m k).mp hv) (not_not_intro hk)
    | some v => rfl
  · rw [if_neg h]
    have hk : k ∉ keys m := fun hm =>
      h ((List.perm_insertionSort strLeRel (keys m)).mem_iff.mpr hm)
    exact ((mapLookup_none_iff m k).mpr hk).symm

/-- C3: the claim requires the returned key/value pairs to come back with
keys in strictly ascending lexicographic order, as a contract callers may
depend on. The program returns a Go `map[string]string`
(listeners.go:141, 169-172), whose iteration order is unspecified and
randomized, so the sorted rebuild of listeners.go:163-172 is semantically
a no-op: through the observations a Go map affords — lookup and key
membership — `defaultBuild` coincides with the merged map it was built
from at every key (first conjunct), and no ordering contract is delivered
to any caller. The union half of the claim does hold, evaluated here at
the failing input: protocol HTTPS with listener-level defaults Host and
Apple and server-level default Cert — the call succeeds and the key set
of the result is exactly the union of the two default key sets. -/
theorem default_options_sort_no_observable_effect :
    (∀ (m : List (String × String)) (k : String),
      mapLookup (defaultBuild m) k = mapLookup m k) ∧
    ∃ opts, DefaultOptions [("Host", "a"), ("Apple", "b")] [("Port", "4444")]
        (fun _ => [("Cert", "c")]) "HTTPS" = .ok opts ∧
      ∀ k, k ∈ keys opts ↔
        (k ∈ keys [("Host", "a"), ("Apple", "b")] ∨
          k ∈ keys [("Cert", "c")]) := by
  refine ⟨mapLookup_defaultBuild,
    ⟨defaultBuild (goMerge [("Host", "a"), ("Apple", "b")] [("Cert", "c")]),
      ?_, ?_⟩⟩
  · rfl
  · intro k
    rw [mem_keys_defaultBuild]
    exact mem_keys_goMerge _ _ k

theorem find?_none_iff_hasID_false (repo : List Listener) (id : Nat) :
    repo.find? (fun l => l.id == id) = none ↔ hasID repo id = false := by
  rw [List.find?_eq_none]
  simp [hasID, List.any_eq_false]

theorem repoByID_error_of_absent (repo : List Listener) (id : Nat)
    (h : hasID repo id = false) :
    repoByID repo id =
      .error (.base .recordNotFound "listener not found by id") := by
  unfold repoByID
  rw [(find?_none_iff_hasID_false repo id).mpr h]

theorem listenerByID_not_found (ls : ListenerService) (id : Nat)
    (h1 : hasID ls.httpRepo id = false) (h2 : hasID ls.tcpRepo id = false) :
    ListenerByID ls id = .error (.base .recordNotFound
      "pkg/services/listeners.GetListenerByID(): could not find listener") := by
  unfold ListenerByID
  rw [repoByID_error_of_absent _ _ h1, repoByID_error_of_absent _ _ h2]

theorem listenerByID_found_http (ls : ListenerService) (id : Nat)
    (l : Listener) (h : repoByID ls.httpRepo id = .ok l) :
    ListenerByID ls id = .ok l := by
  unfold ListenerByID
  rw [h]

theorem listenerByID_found_tcp (ls : ListenerService) (id : Nat)
    (l : Listener) (h1 : hasID ls.httpRepo id = false)
    (h2 : repoByID ls.tcpRepo id = .ok l) :
    ListenerByID ls id = .ok l := by
  unfold ListenerByID
  rw [repoByID_error_of_absent _ _ h1, h2]

theorem repoByID_append_fresh (repo : List Listener) (L : Listener)
    (h : hasID repo L.id = false) :
    repoByID (repo ++ [L]) L.id = .ok L := by
  unfold repoByID
  rw [List.find?_append, (find?_none_iff_hasID_false repo L.id).mpr h]
  simp [List.find?]

theorem filter_ne_of_absent (repo : List Listener) (id : Nat)
    (h : hasID repo id = false) :
    repo.filter (fun l => !(l.id == id)) = repo := by
  rw [List.filter_eq_self]
  intro a ha
  simp only [hasID, List.any_eq_false] at h
  simpa using h a ha

theorem repoRemoveByID_append (repo : List Listener) (L : Listener)
    (h : hasID repo L.id = false) :
    repoRemoveByID (repo ++ [L]) L.id = .ok repo := by
  unfold repoRemoveByID
  have hh : hasID (repo ++ [L]) L.id = true := by
    simp [hasID]
  rw [if_pos hh, List.filter_append, filter_ne_of_absent repo L.id h]
  simp

theorem absent_of_listenerByID_error (ls : ListenerService) (id : Nat)
    (e : GoErr) (h : ListenerByID ls id = .error e) :
    hasID ls.httpRepo id = false ∧ hasID ls.tcpRepo id = false := by
  unfold ListenerByID at h
  cases hh : repoByID ls.httpRepo id with
  | ok l => rw [hh] at h; cases h
  | error e1 =>
    rw [hh] at h
    cases ht : repoByID ls.tcpRepo id with
    | ok l => rw [ht] at h; cases h
    | error e2 =>
      constructor
      · unfold repoByID at hh
        cases hf : ls.httpRepo.find? (fun l => l.id == id) with
        | some l => rw [hf] at hh; cases hh
        | none => exact (find?_none_iff_hasID_false _ _).mp hf
      · unfold repoByID at ht
        cases hf : ls.tcpRepo.find? (fun l => l.id == id) with
        | some l => rw [hf] at ht; cases ht
        | none => exact (find?_none_iff_hasID_false _ _).mp hf

/-- An HTTP listener with identifier 7. -/
def dupHTTPListener : Listener where
  id := 7
  name := "h"
  protocol := listenersHTTP
  options := []
  server := some { id := 8, stopErr := none }

/-- A raw-socket listener that happens to share identifier 7. -/
def dupTCPListener : Listener where
  id := 7
  name := "t"
  protocol := listenersTCP
  options := []
  server := none

/-- A service whose HTTP repository already holds `dupHTTPListener` and
whose TCP repository holds the just-added `dupTCPListener`. -/
def dupSvc : ListenerService where
  tcpRepo := [dupTCPListener]
  httpRepo := [dupHTTPListener]
  httpServerRepo := []

/-- C8 counterexample: identifier uniqueness is only per-repository, and
`Listener(id)` probes the HTTP repository first (listeners.go:185-192).
Adding the TCP listener with id 7 succeeds (its own repository was empty),
yet immediately afterwards `Listener(7)` returns the HTTP listener of the
same id, not the listener just added — so `Listener(id)` is not the exact
inverse of adding a listener. -/
theorem listener_not_exact_inverse_of_add :
    repoAdd [] dupTCPListener = .ok [dupTCPListener] ∧
    ListenerByID dupSvc 7 = .ok dupHTTPListener ∧
    dupHTTPListener ≠ dupTCPListener := by
  decide

/-- C8 (amended): `Listener(id)` inverts adding a listener L provided L's
identifier is fresh across both repositories: after the add, `Listener(L.id)`
returns L; after removing L by id, `Listener(L.id)` returns the
NotFoundError; and — unconditionally — a NotFoundError from `Listener(id)`
implies the id is absent from every per-protocol repository. -/
theorem listener_inverts_add_for_fresh_id (ls : ListenerService)
    (L : Listener) (hfh : hasID ls.httpRepo L.id = false)
    (hft : hasID ls.tcpRepo L.id = false) :
    (∀ repo2, repoAdd ls.tcpRepo L = .ok repo2 →
      ListenerByID { ls with tcpRepo := repo2 } L.id = .ok L ∧
      ∀ repo3, repoRemoveByID repo2 L.id = .ok repo3 →
        ListenerByID { ls with tcpRepo := repo3 } L.id =
          .error (.base .recordNotFound
            "pkg/services/listeners.GetListenerByID(): could not find listener")) ∧
    (∀ repo2, repoAdd ls.httpRepo L = .ok repo2 →
      ListenerByID { ls with httpRepo := repo2 } L.id = .ok L ∧
      ∀ repo3, repoRemoveByID repo2 L.id = .ok repo3 →
        ListenerByID { ls with httpRepo := repo3 } L.id =
          .error (.base .recordNotFound
            "pkg/services/listeners.GetListenerByID(): could not find listener")) ∧
    (∀ id e, ListenerByID ls id = .error e →
      hasID ls.httpRepo id = false ∧ hasID ls.tcpRepo id = false) := by
  refine ⟨?_, ?_, ?_⟩
  · intro repo2 hadd
    rw [repoAdd, if_neg (by rw [hft]; exact Bool.false_ne_true)] at hadd
    injection hadd with hadd
    subst hadd
    constructor
    · exact listenerByID_found_tcp _ _ _ hfh (repoByID_append_fresh _ _ hft)
    · intro repo3 hrem
      rw [repoRemoveByID_append _ _ hft] at hrem
      injection hrem with hrem
      subst hrem
      exact listenerByID_not_found _ _ hfh hft
  · intro repo2 hadd
    rw [repoAdd, if_neg (by rw [hfh]; exact Bool.false_ne_true)] at hadd
    injection hadd with hadd
    subst hadd
    constructor
    · exact listenerByID_found_http _ _ _ (repoByID_append_fresh _ _ hfh)
    · intro repo3 hrem
      rw [repoRemoveByID_append _ _ hfh] at hrem
      injection hrem with hrem
      subst hrem
      exact listenerByID_not_found _ _ hfh hft
  · intro id e h
    exact absent_of_listenerByID_error ls id e h

/-- A raw-socket listener with an identifier fresh in `svc0`. -/
def freshTCPListener : Listener where
  id := 9
  name := "fresh"
  protocol := listenersTCP
  options := []
  server := none

/-- The empty service after `freshTCPListener` was added to the TCP
repository. -/
def freshSvc : ListenerService where
  tcpRepo := [freshTCPListener]
  httpRepo := []
  httpServerRepo := []

/-- Witness for the amended C8: adding the fresh listener to the empty
service makes it retrievable by its id, and removing it makes the lookup
fail with the NotFoundError again. -/
theorem listener_inverts_add_for_fresh_id_witness :
    ListenerByID freshSvc 9 = .ok freshTCPListener ∧
    ListenerByID svc0 9 =
      .error (.base .recordNotFound
        "pkg/services/listeners.GetListenerByID(): could not find listener") := by
  have h := (listener_inverts_add_for_fresh_id svc0 freshTCPListener
    (by decide) (by decide)).1 [freshTCPListener] (by decide)
  exact ⟨h.1, h.2 [] (by decide)⟩

end Merlin
